import Mathlib

/-!
Verification development for the HomeHUB / HomePOD dashboard servers
(`homepod_server_v2.py`, `homepod_server_v3.py`, `demo_server.py`).

Python dictionaries are embedded as association lists with insertion-order
update semantics (`dinsert`), Python `None` as a distinguished value
constructor, numeric sensor payload values as rationals, and handler side
effects (file writes, HTTP calls) as explicit state passed in and out of
pure functions.
-/

namespace HomeHub

/-- A Python/JSON value as it appears in sensor payload dictionaries:
`None`, booleans, numbers, strings, and nested objects (dictionaries with
string keys, as insertion-ordered association lists). -/
inductive SVal where
  | vNone
  | vBool (b : Bool)
  | vNum (q : ℚ)
  | vStr (s : String)
  | vDict (entries : List (String × SVal))

mutual
def SVal.decEq : (a b : SVal) → Decidable (a = b)
  | .vNone, .vNone => isTrue rfl
  | .vBool a, .vBool b =>
    if h : a = b then isTrue (by rw [h]) else isFalse (fun he => SVal.noConfusion he h)
  | .vNum a, .vNum b =>
    if h : a = b then isTrue (by rw [h]) else isFalse (fun he => SVal.noConfusion he h)
  | .vStr a, .vStr b =>
    if h : a = b then isTrue (by rw [h]) else isFalse (fun he => SVal.noConfusion he h)
  | .vDict d₁, .vDict d₂ =>
    match SVal.decEqEntries d₁ d₂ with
    | isTrue h => isTrue (by rw [h])
    | isFalse h => isFalse (fun he => SVal.noConfusion he h)
  | .vNone, .vBool _ | .vNone, .vNum _ | .vNone, .vStr _ | .vNone, .vDict _
  | .vBool _, .vNone | .vBool _, .vNum _ | .vBool _, .vStr _ | .vBool _, .vDict _
  | .vNum _, .vNone | .vNum _, .vBool _ | .vNum _, .vStr _ | .vNum _, .vDict _
  | .vStr _, .vNone | .vStr _, .vBool _ | .vStr _, .vNum _ | .vStr _, .vDict _
  | .vDict _, .vNone | .vDict _, .vBool _ | .vDict _, .vNum _ | .vDict _, .vStr _ =>
    isFalse (fun he => SVal.noConfusion he)
def SVal.decEqEntries : (d₁ d₂ : List (String × SVal)) → Decidable (d₁ = d₂)
  | [], [] => isTrue rfl
  | [], _ :: _ => isFalse (fun h => List.noConfusion h)
  | _ :: _, [] => isFalse (fun h => List.noConfusion h)
  | (k₁, v₁) :: r₁, (k₂, v₂) :: r₂ =>
    if hk : k₁ = k₂ then
      match SVal.decEq v₁ v₂ with
      | isTrue hv =>
        match SVal.decEqEntries r₁ r₂ with
        | isTrue hr => isTrue (by rw [hk, hv, hr])
        | isFalse hr => isFalse (fun h => by
            injection h with hhead htail
            exact hr htail)
      | isFalse hv => isFalse (fun h => by
          injection h with hhead htail
          injection hhead with hk' hv'
          exact hv hv')
    else isFalse (fun h => by
      injection h with hhead htail
      injection hhead with hk' hv'
      exact hk hk')
end

instance : DecidableEq SVal := SVal.decEq

/-- A Python dictionary with string keys, as an insertion-ordered
association list. -/
abbrev PDict := List (String × SVal)

/-- Dictionary lookup (`d[k]` / `k in d`): first entry with the given key. -/
def alookup {κ α : Type} [DecidableEq κ] (m : List (κ × α)) (k : κ) : Option α :=
  match m with
  | [] => none
  | (k₀, v₀) :: rest => if k₀ = k then some v₀ else alookup rest k

/-- Dictionary update (`d[k] = v`): replace in place when the key exists,
append otherwise — Python's insertion-order semantics. -/
def dinsert {κ α : Type} [DecidableEq κ] (m : List (κ × α)) (k : κ) (v : α) :
    List (κ × α) :=
  match m with
  | [] => [(k, v)]
  | (k₀, v₀) :: rest => if k₀ = k then (k₀, v) :: rest else (k₀, v₀) :: dinsert rest k v

/-- Left-biased choice on `Option` (Python `x or y` on optional results). -/
def oalt {α : Type} : Option α → Option α → Option α
  | some a, _ => some a
  | none, b => b

/-- Characters removed by Python's `str.strip()` (ASCII whitespace). -/
def pyIsSpace (c : Char) : Bool :=
  c = ' ' || c = '\t' || c = '\n' || c = '\r' || c = '\x0b' || c = '\x0c'

/-- Python `str.strip()`. -/
def pyStrip (s : String) : String :=
  String.mk (((s.toList.dropWhile pyIsSpace).reverse.dropWhile pyIsSpace).reverse)

/-!
## Sensor interpretation functions

`interpret_audio` and `interpret_light` are identical in
`homepod_server_v2.py`, `homepod_server_v3.py` and `demo_server.py`.
-/

/-- `interpret_audio(audio_peak)` from the servers. -/
def interpret_audio (audio_peak : Option ℚ) : Option String :=
  match audio_peak with
  | none => none
  | some a =>
    if a ≤ 50 then some "Quiet"
    else if a ≤ 500 then some "Talking"
    else some "Loud"

/-- `interpret_light(lux)` from the servers. -/
def interpret_light (lux : Option ℚ) : Option String :=
  match lux with
  | none => none
  | some l =>
    if l < 50 then some "Dark"
    else if l ≤ 500 then some "Bright"
    else some "Very Bright"

/-!
## Persistent app state: items and loaders

Each app's loader reads its JSON file; a missing file or any exception
while opening/parsing yields the app's empty default.
-/

/-- A to-do item as created by `todo_add`. -/
structure TodoItem where
  id : String
  text : String
  completed : Bool
  deriving DecidableEq, Repr

/-- A note as created by `notes_add`. -/
structure Note where
  id : String
  title : String
  content : String
  created : String
  deriving DecidableEq, Repr

/-- A timer as created by `timers_add`. -/
structure TimerItem where
  id : String
  name : String
  duration : Int
  running : Bool
  start_time : ℚ
  deriving DecidableEq, Repr

/-- A music-queue track as created by `music_add`. -/
structure Track where
  id : String
  title : String
  artist : String
  deriving DecidableEq, Repr

/-- The music player state dictionary
`\x7b'queue': [...], 'current_index': i, 'is_playing': b\x7d`. -/
structure MusicState where
  queue : List Track
  current_index : Int
  is_playing : Bool
  deriving DecidableEq, Repr

/-- Outcome of reading a persisted JSON file: the file may be absent
(`os.path.exists` false), opening/parsing may raise, or it parses to a
value of the expected shape. -/
inductive FileRead (α : Type) where
  | missing
  | raises
  | ok (content : α)
  deriving DecidableEq

/-- `load_todos()`. -/
def load_todos : FileRead (List TodoItem) → List TodoItem
  | .missing => []
  | .raises => []
  | .ok l => l

/-- `load_notes()`. -/
def load_notes : FileRead (List Note) → List Note
  | .missing => []
  | .raises => []
  | .ok l => l

/-- `load_timers()`. -/
def load_timers : FileRead (List TimerItem) → List TimerItem
  | .missing => []
  | .raises => []
  | .ok l => l

/-- The default music state used when `music_queue.json` is missing or
unreadable. -/
def default_music_state : MusicState :=
  { queue := [], current_index := 0, is_playing := false }

/-- `load_music_queue()`. -/
def load_music_queue : FileRead MusicState → MusicState
  | .missing => default_music_state
  | .raises => default_music_state
  | .ok s => s

/-!
## Weather cache

`fetch_weather` consults a module-level cache; the outcome of the two
outbound HTTP requests is passed in explicitly (`NetResult`), and the
returned record carries a `requested` flag recording whether the function
reached the request-issuing branch at all.
-/

/-- The module-level `weather_cache` dictionary. Responses are JSON
objects, modelled as dictionaries. -/
structure WeatherCache where
  data : Option PDict
  forecast : Option PDict
  last_update : ℚ
  deriving DecidableEq

/-- The initial module-level cache value. -/
def weather_cache_init : WeatherCache :=
  { data := none, forecast := none, last_update := 0 }

/-- `WEATHER_CACHE_DURATION = 600`. -/
def WEATHER_CACHE_DURATION : ℚ := 600

/-- Python truthiness of the cached `data` entry: `None` and the empty
dictionary are falsy. -/
def pyTruthyDict : Option PDict → Bool
  | none => false
  | some d => decide (d ≠ [])

/-- Combined outcome of the two outbound requests: both succeed, or an
exception is raised at some point before both responses are stored. -/
inductive NetResult where
  | ok (current forecast : PDict)
  | exc
  deriving DecidableEq

/-- Result of `fetch_weather()`: the returned `(current, forecast)` pair,
the cache after the call, and whether the outbound-request branch ran. -/
structure FetchOut where
  ret : Option PDict × Option PDict
  cache : WeatherCache
  requested : Bool
  deriving DecidableEq

/-- `fetch_weather()` from `homepod_server_v3.py` / `demo_server.py`. -/
def fetch_weather (cache : WeatherCache) (now : ℚ) (net : NetResult) : FetchOut :=
  if pyTruthyDict cache.data = true ∧ now - cache.last_update < WEATHER_CACHE_DURATION then
    { ret := (cache.data, cache.forecast), cache := cache, requested := false }
  else
    match net with
    | .ok c f =>
      { ret := (some c, some f)
        cache := { data := some c, forecast := some f, last_update := now }
        requested := true }
    | .exc =>
      { ret := (cache.data, cache.forecast), cache := cache, requested := true }

/-!
## Room aggregation (`get_room_data`)

The function is identical in `homepod_server_v3.py` and `demo_server.py`,
up to the module-level `ROOM_CONFIG` and `latest_readings` it reads; both
are passed in explicitly.  Only the `'sensors'` and `'received_at'`
entries of a stored device payload are consulted, so a device entry is
embedded as just those two projections.
-/

/-- The projection of a device's entry in `latest_readings` that
`get_room_data` consults: `device_data.get('sensors', \x7b\x7d)` and
`device_data.get('received_at')`. -/
structure DeviceData where
  sensors : PDict
  received_at : Option String
  deriving DecidableEq

/-- The `latest_readings` dictionary, keyed by device name. -/
abbrev Readings := List (String × DeviceData)

/-- `ROOM_CONFIG` from `homepod_server_v3.py`. -/
def ROOM_CONFIG : List (String × List String) :=
  [("Bedroom", ["HomePOD_Env_Node", "HomePOD_Light_Node"]),
   ("Living Room", ["HomePOD_Env_Node_2"])]

/-- The inner `for key, value in sensors.items()` loop: store each
non-`None` value into `merged_sensors`. -/
def mergeSensors (merged : PDict) (sensors : PDict) : PDict :=
  match sensors with
  | [] => merged
  | (k, v) :: rest =>
    mergeSensors (if v = SVal.vNone then merged else dinsert merged k v) rest

/-- The timestamp update: `if timestamp: if latest_timestamp is None or
timestamp > latest_timestamp: latest_timestamp = timestamp` (Python string
comparison; the empty string is falsy). -/
def mergeTs (latest : Option String) (ts : Option String) : Option String :=
  match ts with
  | none => latest
  | some t =>
    if t = "" then latest
    else
      match latest with
      | none => some t
      | some c => if c < t then some t else latest

/-- The `for device_name in device_list` loop body of `get_room_data`,
threading the `(merged_sensors, latest_timestamp)` accumulator. -/
def roomLoop (readings : Readings) (acc : PDict × Option String) :
    List String → PDict × Option String
  | [] => acc
  | dn :: rest =>
    match alookup readings dn with
    | none => roomLoop readings acc rest
    | some dd =>
      roomLoop readings (mergeSensors acc.1 dd.sensors, mergeTs acc.2 dd.received_at) rest

/-- One room's entry in the result of `get_room_data`. -/
structure RoomData where
  sensors : PDict
  received_at : Option String
  deriving DecidableEq

/-- The outer `for room_name, device_list in ROOM_CONFIG.items()` loop. -/
def roomsLoop (readings : Readings) (rooms : List (String × RoomData)) :
    List (String × List String) → List (String × RoomData)
  | [] => rooms
  | (room_name, device_list) :: rest =>
    let m := roomLoop readings ([], none) device_list
    roomsLoop readings
      (if m.1 = [] then rooms else dinsert rooms room_name ⟨m.1, m.2⟩) rest

/-- `get_room_data()`, over an explicit `latest_readings` and room
configuration. -/
def get_room_data (readings : Readings) (config : List (String × List String)) :
    List (String × RoomData) :=
  roomsLoop readings [] config

/-- The sensor value the rendered output exposes for a room and key:
`rooms[room]['sensors'][k]` when present. -/
def roomSensor (rooms : List (String × RoomData)) (room k : String) : Option SVal :=
  match alookup rooms room with
  | none => none
  | some rd => alookup rd.sensors k

/-!
### Specification-side descriptions for the room merge

These follow the claim's words — "last write wins" across the configured
device order, and "maximum of the contributing devices' timestamps under
string comparison" — and are proved equal to the code-side fold.
-/

/-- The last (in dictionary order) non-`None` value a single sensors
dictionary holds for key `k`. -/
def lastNonNoneIn (sensors : PDict) (k : String) : Option SVal :=
  match sensors with
  | [] => none
  | (k₀, v) :: rest =>
    oalt (lastNonNoneIn rest k) (if k₀ = k ∧ v ≠ SVal.vNone then some v else none)

/-- The non-`None` value device `dn` contributes for key `k`, if it has an
entry in `latest_readings` at all. -/
def deviceContrib (readings : Readings) (dn k : String) : Option SVal :=
  match alookup readings dn with
  | none => none
  | some dd => lastNonNoneIn dd.sensors k

/-- Last write wins across the configured device order: the value of the
last device in `devs` contributing a non-`None` value for `k`. -/
def specLastWrite (readings : Readings) (devs : List String) (k : String) : Option SVal :=
  match devs with
  | [] => none
  | dn :: rest => oalt (specLastWrite readings rest k) (deviceContrib readings dn k)

/-- The (truthy) timestamp device `dn` contributes, if any. -/
def devTs (readings : Readings) (dn : String) : Option String :=
  match alookup readings dn with
  | none => none
  | some dd =>
    match dd.received_at with
    | none => none
    | some t => if t = "" then none else some t

/-- All timestamps contributed by the room's configured devices. -/
def contribTs (readings : Readings) (devs : List String) : List String :=
  devs.filterMap (devTs readings)

/-- Maximum of a list of strings under lexicographic comparison. -/
def listMaxStr : List String → Option String
  | [] => none
  | t :: rest =>
    match listMaxStr rest with
    | none => some t
    | some m => some (max t m)

/-- The claim's description of a room's `received_at`: the maximum of the
contributing devices' timestamps under string comparison. -/
def specMaxTs (readings : Readings) (devs : List String) : Option String :=
  listMaxStr (contribTs readings devs)

/-- A `received_at` entry after Python truthiness filtering: `None` and the
empty string contribute nothing. -/
def tsOf (ts : Option String) : Option String :=
  match ts with
  | none => none
  | some t => if t = "" then none else some t

/-- Maximum of two optional strings. -/
def omax : Option String → Option String → Option String
  | none, b => b
  | some a, none => some a
  | some a, some b => some (max a b)

/-!
## Demo server data (`demo_server.py`)

`latest_readings` is pre-populated at module load; the three `received_at`
strings are whatever `datetime.now()` produced at startup, so they are
parameters here.
-/

/-- `ROOM_CONFIG` from `demo_server.py`. -/
def DEMO_ROOM_CONFIG : List (String × List String) :=
  [("Bedroom", ["HomeHUB_Env_Node", "HomeHUB_Light_Node"]),
   ("Living Room", ["HomeHUB_Env_Node_2"])]

/-- The pre-populated `latest_readings` of `demo_server.py`, restricted to
the fields `get_room_data` reads. -/
def demo_latest_readings (t₁ t₂ t₃ : String) : Readings :=
  [("HomeHUB_Env_Node",
    { sensors := [("temperature", SVal.vNum 21.8), ("humidity", SVal.vNum 42.5),
                  ("audio_peak", SVal.vNum 35)]
      received_at := some t₁ }),
   ("HomeHUB_Light_Node",
    { sensors := [("light", SVal.vNum 180)]
      received_at := some t₂ }),
   ("HomeHUB_Env_Node_2",
    { sensors := [("temperature", SVal.vNum 23.2), ("humidity", SVal.vNum 38.7),
                  ("audio_peak", SVal.vNum 245)]
      received_at := some t₃ })]

/-!
## HTTP handlers that mutate app state

Each app's state lives in a module-level variable and is mirrored to a
JSON file by `save_*`.  A world pairs the in-memory value with the file's
content (`none` when the file has never been written in the modelled
window; a write stores the serialized value itself, since `json.dump` is
injective on the embedded values).
-/

/-- An app's in-memory state together with its JSON file's content. -/
structure AppWorld (σ : Type) where
  mem : σ
  file : Option σ

/-- `save_todos` / `save_notes` / `save_timers` / `save_music_queue`:
the current in-memory value is serialized to the app's file. -/
def saveApp {σ : Type} (s : σ) : AppWorld σ :=
  { mem := s, file := some s }

/-- `todo_add` (POST `/todo/add`); `text` is the raw form field, the fresh
`uuid4` is a parameter. -/
def todo_add (w : AppWorld (List TodoItem)) (freshId text : String) :
    AppWorld (List TodoItem) :=
  let t := pyStrip text
  if t ≠ "" then saveApp (w.mem ++ [{ id := freshId, text := t, completed := false }])
  else w

/-- The `for item in todo_list` loop of `todo_toggle`: negate `completed`
on the first item with the given id, then `break`. -/
def toggleFirst (l : List TodoItem) (item_id : String) : List TodoItem :=
  match l with
  | [] => []
  | t :: rest =>
    if t.id = item_id then { t with completed := !t.completed } :: rest
    else t :: toggleFirst rest item_id

/-- `todo_toggle` (POST `/todo/toggle/<item_id>`); saves unconditionally. -/
def todo_toggle (w : AppWorld (List TodoItem)) (item_id : String) :
    AppWorld (List TodoItem) :=
  saveApp (toggleFirst w.mem item_id)

/-- `todo_delete` (POST `/todo/delete/<item_id>`). -/
def todo_delete (w : AppWorld (List TodoItem)) (item_id : String) :
    AppWorld (List TodoItem) :=
  saveApp (w.mem.filter (fun t => decide (t.id ≠ item_id)))

/-- `notes_add` (POST `/notes/add`); `created` is the formatted
`datetime.now()` string. -/
def notes_add (w : AppWorld (List Note)) (freshId title content created : String) :
    AppWorld (List Note) :=
  let t := pyStrip title
  let c := pyStrip content
  if t ≠ "" ∧ c ≠ "" then
    saveApp (w.mem ++ [{ id := freshId, title := t, content := c, created := created }])
  else w

/-- `notes_delete` (POST `/notes/delete/<note_id>`). -/
def notes_delete (w : AppWorld (List Note)) (note_id : String) : AppWorld (List Note) :=
  saveApp (w.mem.filter (fun n => decide (n.id ≠ note_id)))

/-- `timers_add` (POST `/timers/add`); `minutes` and `seconds` are the
already-converted integer form fields. -/
def timers_add (w : AppWorld (List TimerItem)) (freshId name : String)
    (minutes seconds : Int) : AppWorld (List TimerItem) :=
  let n := pyStrip name
  if n ≠ "" ∧ (minutes > 0 ∨ seconds > 0) then
    saveApp (w.mem ++ [{ id := freshId, name := n, duration := minutes * 60 + seconds,
                         running := false, start_time := 0 }])
  else w

/-- The loop of `timers_start`: mark the first timer with the given id
running and stamp `start_time = time.time()`. -/
def startFirst (l : List TimerItem) (timer_id : String) (now : ℚ) : List TimerItem :=
  match l with
  | [] => []
  | t :: rest =>
    if t.id = timer_id then { t with running := true, start_time := now } :: rest
    else t :: startFirst rest timer_id now

/-- `timers_start` (POST `/timers/start/<timer_id>`). -/
def timers_start (w : AppWorld (List TimerItem)) (timer_id : String) (now : ℚ) :
    AppWorld (List TimerItem) :=
  saveApp (startFirst w.mem timer_id now)

/-- The loop of `timers_stop`: clear `running` on the first match. -/
def stopFirst (l : List TimerItem) (timer_id : String) : List TimerItem :=
  match l with
  | [] => []
  | t :: rest =>
    if t.id = timer_id then { t with running := false } :: rest
    else t :: stopFirst rest timer_id

/-- `timers_stop` (POST `/timers/stop/<timer_id>`). -/
def timers_stop (w : AppWorld (List TimerItem)) (timer_id : String) :
    AppWorld (List TimerItem) :=
  saveApp (stopFirst w.mem timer_id)

/-- `timers_delete` (POST `/timers/delete/<timer_id>`). -/
def timers_delete (w : AppWorld (List TimerItem)) (timer_id : String) :
    AppWorld (List TimerItem) :=
  saveApp (w.mem.filter (fun t => decide (t.id ≠ timer_id)))

/-- `music_add` (POST `/music/add`). -/
def music_add (w : AppWorld MusicState) (freshId title artist : String) :
    AppWorld MusicState :=
  let t := pyStrip title
  let a := pyStrip artist
  if t ≠ "" ∧ a ≠ "" then
    saveApp { w.mem with queue := w.mem.queue ++ [{ id := freshId, title := t, artist := a }] }
  else w

/-- `music_play` (POST `/music/play`). -/
def music_play (w : AppWorld MusicState) : AppWorld MusicState :=
  saveApp { w.mem with is_playing := true }

/-- `music_pause` (POST `/music/pause`). -/
def music_pause (w : AppWorld MusicState) : AppWorld MusicState :=
  saveApp { w.mem with is_playing := false }

/-- `music_play_index` (POST `/music/play/<int:index>`). -/
def music_play_index (w : AppWorld MusicState) (index : Int) : AppWorld MusicState :=
  if 0 ≤ index ∧ index < (w.mem.queue.length : Int) then
    saveApp { w.mem with current_index := index, is_playing := true }
  else w

/-- `music_next` (POST `/music/next`); Python `%` on a positive modulus is
`Int.emod`, which `%` denotes here. -/
def music_next (w : AppWorld MusicState) : AppWorld MusicState :=
  if w.mem.queue ≠ [] then
    saveApp { w.mem with
      current_index := (w.mem.current_index + 1) % (w.mem.queue.length : Int) }
  else w

/-- `music_previous` (POST `/music/previous`). -/
def music_previous (w : AppWorld MusicState) : AppWorld MusicState :=
  if w.mem.queue ≠ [] then
    saveApp { w.mem with
      current_index := (w.mem.current_index - 1) % (w.mem.queue.length : Int) }
  else w

/-- `music_remove` (POST `/music/remove/<track_id>`): filter the queue,
then clamp `current_index` to the last position when it fell off the end
of a still-nonempty queue; saves unconditionally. -/
def music_remove (w : AppWorld MusicState) (track_id : String) : AppWorld MusicState :=
  let q := w.mem.queue.filter (fun t => decide (t.id ≠ track_id))
  let ci :=
    if (q.length : Int) ≤ w.mem.current_index ∧ q ≠ [] then (q.length : Int) - 1
    else w.mem.current_index
  saveApp { w.mem with queue := q, current_index := ci }

/-!
### Operation alphabets

One constructor per mutating route of each app, so that "any sequence of
operations" can be quantified over.
-/

/-- The mutating to-do routes. -/
inductive TodoOp where
  | add (freshId text : String)
  | toggle (item_id : String)
  | delete (item_id : String)

/-- Apply a to-do operation. -/
def todoStep (o : TodoOp) (w : AppWorld (List TodoItem)) : AppWorld (List TodoItem) :=
  match o with
  | .add freshId text => todo_add w freshId text
  | .toggle item_id => todo_toggle w item_id
  | .delete item_id => todo_delete w item_id

/-- The mutating notes routes. -/
inductive NotesOp where
  | add (freshId title content created : String)
  | delete (note_id : String)

/-- Apply a notes operation. -/
def notesStep (o : NotesOp) (w : AppWorld (List Note)) : AppWorld (List Note) :=
  match o with
  | .add freshId title content created => notes_add w freshId title content created
  | .delete note_id => notes_delete w note_id

/-- The mutating timers routes. -/
inductive TimersOp where
  | add (freshId name : String) (minutes seconds : Int)
  | start (timer_id : String) (now : ℚ)
  | stop (timer_id : String)
  | delete (timer_id : String)

/-- Apply a timers operation. -/
def timersStep (o : TimersOp) (w : AppWorld (List TimerItem)) : AppWorld (List TimerItem) :=
  match o with
  | .add freshId name minutes seconds => timers_add w freshId name minutes seconds
  | .start timer_id now => timers_start w timer_id now
  | .stop timer_id => timers_stop w timer_id
  | .delete timer_id => timers_delete w timer_id

/-- The mutating music routes. -/
inductive MusicOp where
  | add (freshId title artist : String)
  | play
  | pause
  | playIndex (index : Int)
  | next
  | previous
  | remove (track_id : String)

/-- Apply a music operation. -/
def musicStep (o : MusicOp) (w : AppWorld MusicState) : AppWorld MusicState :=
  match o with
  | .add freshId title artist => music_add w freshId title artist
  | .play => music_play w
  | .pause => music_pause w
  | .playIndex index => music_play_index w index
  | .next => music_next w
  | .previous => music_previous w
  | .remove track_id => music_remove w track_id

/-- The in-memory effect of a music operation (the handlers never read the
file, so the memory component does not depend on it). -/
def musicMem (o : MusicOp) (s : MusicState) : MusicState :=
  (musicStep o { mem := s, file := none }).mem

/-- The side condition `uuid4` provides for `music_add`: the fresh id is
not already an id in the queue. -/
def opFresh : MusicOp → MusicState → Prop
  | .add freshId _ _, s => freshId ∉ s.queue.map Track.id
  | _, _ => True

/-- Music states reachable from the default state by handler calls, with
`uuid4` freshness on `add`. -/
inductive MusicReach : MusicState → Prop
  | init : MusicReach default_music_state
  | step (o : MusicOp) (s : MusicState) :
      MusicReach s → opFresh o s → MusicReach (musicMem o s)

/-- The index invariant of the music queue. -/
def musicInv (s : MusicState) : Prop :=
  (s.queue = [] → s.current_index = 0)
  ∧ (s.queue ≠ [] → 0 ≤ s.current_index ∧ s.current_index < (s.queue.length : Int))

/-!
### Spec-side description for `todo_toggle` (C9)
-/

/-- Index of the first to-do item whose id is `item_id`. -/
def firstIdx (l : List TodoItem) (item_id : String) : Option Nat :=
  match l with
  | [] => none
  | t :: rest =>
    if t.id = item_id then some 0 else (firstIdx rest item_id).map (fun n => n + 1)

/-!
## Sensor ingestion (`/sensor-data`)

The handler of `homepod_server_v3.py` (and, identically up to console
output, `homepod_server_v2.py`).  `latest_readings` here stores whole
payload dictionaries under the (arbitrary-valued) `device_name` key, and
the data log file is a list of appended JSON lines.
-/

/-- The response of `/sensor-data`: HTTP 200 with status `'success'`,
HTTP 400 with status `'error'` (no data), or HTTP 500 with status
`'error'` (an exception raised inside the `try` block and caught). -/
inductive SResp where
  | ok200 (device_name : SVal)
  | err400
  | err500
  deriving DecidableEq

/-- The server state `/sensor-data` touches: `latest_readings` and the
appended-to data log file. -/
structure SensorState where
  latest_readings : List (SVal × PDict)
  log : List PDict
  deriving DecidableEq

/-- `receive_sensor_data()`: `body` is the result of `request.get_json()`
(`none` when there was no JSON body), `nowStr` the formatted
`datetime.now()`.  `if not data` is falsy for `None` and for the empty
dictionary.  After the store and the log append, the console-output block
still runs inside the `try`: when the payload has a `'sensors'` key whose
value is not a dictionary, `sensors.get('temperature', 'N/A')` raises
`AttributeError`, the `except` clause answers HTTP 500 — and the mutation
of `latest_readings` and the log has already happened. -/
def receive_sensor_data (st : SensorState) (body : Option PDict) (nowStr : String) :
    SResp × SensorState :=
  match body with
  | none => (.err400, st)
  | some data =>
    if data = [] then (.err400, st)
    else
      let data' := dinsert data "received_at" (SVal.vStr nowStr)
      let device_name := (alookup data' "device_name").getD (SVal.vStr "Unknown Device")
      let st' : SensorState :=
        { latest_readings := dinsert st.latest_readings device_name data'
          log := st.log ++ [data'] }
      match alookup data' "sensors" with
      | none => (.ok200 device_name, st')
      | some (SVal.vDict _) => (.ok200 device_name, st')
      | some _ => (.err500, st')

/-!
## Basic lemmas on the dictionary embedding
-/

theorem oalt_none_left {α : Type} (x : Option α) : oalt none x = x := rfl

theorem oalt_none_right {α : Type} (x : Option α) : oalt x none = x := by
  cases x <;> rfl

theorem oalt_assoc {α : Type} (x y z : Option α) :
    oalt (oalt x y) z = oalt x (oalt y z) := by
  cases x <;> rfl

theorem alookup_dinsert {κ α : Type} [DecidableEq κ] (m : List (κ × α)) (k k' : κ) (v : α) :
    alookup (dinsert m k v) k' = if k = k' then some v else alookup m k' := by
  induction m with
  | nil => simp [dinsert, alookup]
  | cons p rest ih =>
    obtain ⟨k₀, v₀⟩ := p
    by_cases h₀ : k₀ = k
    · subst h₀
      simp only [dinsert, if_pos rfl, alookup]
      split_ifs <;> simp_all [alookup]
    · simp only [dinsert, if_neg h₀, alookup, ih]
      split_ifs <;> simp_all

theorem oalt_ne {α : Type} {x y : Option α} {a : α}
    (hx : x ≠ some a) (hy : y ≠ some a) : oalt x y ≠ some a := by
  cases x with
  | none => exact hy
  | some b => exact hx

/-!
## Lemmas relating the room-merge fold to its specification
-/

theorem lastNonNoneIn_ne_vNone (sensors : PDict) (k : String) :
    lastNonNoneIn sensors k ≠ some SVal.vNone := by
  induction sensors with
  | nil => simp [lastNonNoneIn]
  | cons p rest ih =>
    obtain ⟨k₀, v⟩ := p
    simp only [lastNonNoneIn]
    refine oalt_ne ih ?_
    split_ifs with h
    · simpa using h.2
    · simp

theorem deviceContrib_ne_vNone (readings : Readings) (dn k : String) :
    deviceContrib readings dn k ≠ some SVal.vNone := by
  unfold deviceContrib
  cases alookup readings dn with
  | none => simp
  | some dd => exact lastNonNoneIn_ne_vNone dd.sensors k

theorem specLastWrite_ne_vNone (readings : Readings) (devs : List String) (k : String) :
    specLastWrite readings devs k ≠ some SVal.vNone := by
  induction devs with
  | nil => simp [specLastWrite]
  | cons dn rest ih =>
    exact oalt_ne ih (deviceContrib_ne_vNone readings dn k)

theorem alookup_mergeSensors (sensors : PDict) : ∀ (m : PDict) (k : String),
    alookup (mergeSensors m sensors) k = oalt (lastNonNoneIn sensors k) (alookup m k) := by
  induction sensors with
  | nil => intro m k; rfl
  | cons p rest ih =>
    obtain ⟨k₀, v⟩ := p
    intro m k
    simp only [mergeSensors, lastNonNoneIn]
    rw [ih, oalt_assoc]
    congr 1
    by_cases hv : v = SVal.vNone
    · simp [hv, oalt]
    · rw [if_neg hv, alookup_dinsert]
      by_cases hk : k₀ = k
      · simp [hk, hv, oalt]
      · simp [hk, hv, oalt]

theorem roomLoop_fst (readings : Readings) : ∀ (devs : List String)
    (acc : PDict × Option String) (k : String),
    alookup (roomLoop readings acc devs).1 k
      = oalt (specLastWrite readings devs k) (alookup acc.1 k) := by
  intro devs
  induction devs with
  | nil => intro acc k; rfl
  | cons dn rest ih =>
    intro acc k
    simp only [roomLoop, specLastWrite]
    cases h : alookup readings dn with
    | none =>
      rw [ih]
      simp [deviceContrib, h, oalt_none_right]
    | some dd =>
      rw [ih, alookup_mergeSensors, ← oalt_assoc]
      simp [deviceContrib, h]

theorem mergeTs_eq_omax (latest ts : Option String) :
    mergeTs latest ts = omax latest (tsOf ts) := by
  cases ts with
  | none => cases latest <;> rfl
  | some t =>
    by_cases ht : t = ""
    · simp only [mergeTs, tsOf, if_pos ht]
      cases latest <;> rfl
    · simp only [mergeTs, tsOf, if_neg ht]
      cases latest with
      | none => rfl
      | some c =>
        simp only [omax]
        by_cases h : c < t
        · simp [h, max_eq_right (le_of_lt h)]
        · simp [h, max_eq_left (le_of_not_lt h)]

theorem omax_none_right (x : Option String) : omax x none = x := by
  cases x <;> rfl

theorem omax_assoc (x y z : Option String) :
    omax (omax x y) z = omax x (omax y z) := by
  cases x <;> cases y <;> cases z <;> simp [omax, max_assoc]

theorem specMaxTs_cons (readings : Readings) (dn : String) (rest : List String) :
    specMaxTs readings (dn :: rest)
      = omax (devTs readings dn) (specMaxTs readings rest) := by
  simp only [specMaxTs, contribTs, List.filterMap_cons]
  cases h : devTs readings dn with
  | none => simp [omax]
  | some t =>
    cases h₂ : listMaxStr (List.filterMap (devTs readings) rest) <;>
      simp [listMaxStr, omax, h₂]

theorem roomLoop_snd (readings : Readings) : ∀ (devs : List String)
    (acc : PDict × Option String),
    (roomLoop readings acc devs).2 = omax acc.2 (specMaxTs readings devs) := by
  intro devs
  induction devs with
  | nil =>
    intro acc
    simp [roomLoop, specMaxTs, contribTs, listMaxStr, omax_none_right]
  | cons dn rest ih =>
    intro acc
    simp only [roomLoop, specMaxTs_cons]
    cases h : alookup readings dn with
    | none =>
      rw [ih]
      have : devTs readings dn = none := by simp [devTs, h]
      rw [this]
      rfl
    | some dd =>
      rw [ih, ← omax_assoc]
      have : devTs readings dn = tsOf dd.received_at := by simp [devTs, h, tsOf]
      rw [this, mergeTs_eq_omax]

/-!
## Claim theorems: sensor interpretation, loaders, weather
-/

/-- C10: the interpretation functions partition their numeric inputs:
`interpret_light` returns `'Dark'` iff `lux < 50`, `'Bright'` iff
`50 ≤ lux ≤ 500`, `'Very Bright'` iff `lux > 500`; `interpret_audio`
returns `'Quiet'` iff `audio_peak ≤ 50`, `'Talking'` iff
`50 < audio_peak ≤ 500`, `'Loud'` iff `audio_peak > 500`; and both return
`None` exactly when the input is `None`. -/
theorem c10_interpretation_partition : ∀ q : ℚ,
    ((interpret_light (some q) = some "Dark") ↔ q < 50)
    ∧ ((interpret_light (some q) = some "Bright") ↔ 50 ≤ q ∧ q ≤ 500)
    ∧ ((interpret_light (some q) = some "Very Bright") ↔ 500 < q)
    ∧ ((interpret_audio (some q) = some "Quiet") ↔ q ≤ 50)
    ∧ ((interpret_audio (some q) = some "Talking") ↔ 50 < q ∧ q ≤ 500)
    ∧ ((interpret_audio (some q) = some "Loud") ↔ 500 < q)
    ∧ (∀ x, interpret_light x = none ↔ x = none)
    ∧ (∀ x, interpret_audio x = none ↔ x = none) := by
  intro q
  refine ⟨?_, ?_, ?_, ?_, ?_, ?_, ?_, ?_⟩
  · simp only [interpret_light]; split_ifs <;> simp_all
  · simp only [interpret_light]; split_ifs <;> simp_all
  · simp only [interpret_light]; split_ifs <;> simp_all; linarith
  · simp only [interpret_audio]; split_ifs <;> simp_all
  · simp only [interpret_audio]; split_ifs <;> simp_all
  · simp only [interpret_audio]; split_ifs <;> simp_all; linarith
  · intro x
    cases x with
    | none => simp [interpret_light]
    | some l => simp only [interpret_light]; split_ifs <;> simp
  · intro x
    cases x with
    | none => simp [interpret_audio]
    | some a => simp only [interpret_audio]; split_ifs <;> simp

/-- C4: every loader falls back silently to the app's empty default when
the file is missing or opening/parsing raises: the list loaders return
`[]`, and `load_music_queue` returns
`\x7b'queue': [], 'current_index': 0, 'is_playing': False\x7d`; being total
functions of the read outcome, no exception escapes. -/
theorem c4_load_defaults :
    load_todos .missing = [] ∧ load_todos .raises = []
    ∧ load_notes .missing = [] ∧ load_notes .raises = []
    ∧ load_timers .missing = [] ∧ load_timers .raises = []
    ∧ load_music_queue .missing =
        { queue := [], current_index := 0, is_playing := false }
    ∧ load_music_queue .raises =
        { queue := [], current_index := 0, is_playing := false }
    ∧ (∀ l, load_todos (.ok l) = l) ∧ (∀ s, load_music_queue (.ok s) = s) :=
  ⟨rfl, rfl, rfl, rfl, rfl, rfl, rfl, rfl, fun _ => rfl, fun _ => rfl⟩

/-- C3: `fetch_weather` is time-cached: when the cached data is truthy
(non-empty) and fewer than `WEATHER_CACHE_DURATION = 600` seconds have
elapsed since `last_update`, it returns the cached pair with no outbound
request and an unchanged cache; otherwise it reaches the request branch
and, when both requests succeed, returns the two responses and stores them
together with the current time. -/
theorem c3_fetch_weather_cache : ∀ (cache : WeatherCache) (now : ℚ) (net : NetResult),
    ((pyTruthyDict cache.data = true ∧ now - cache.last_update < WEATHER_CACHE_DURATION) →
      fetch_weather cache now net =
        { ret := (cache.data, cache.forecast), cache := cache, requested := false })
    ∧ (¬ (pyTruthyDict cache.data = true ∧ now - cache.last_update < WEATHER_CACHE_DURATION) →
      (fetch_weather cache now net).requested = true
      ∧ ∀ c f, net = .ok c f →
        fetch_weather cache now net =
          { ret := (some c, some f)
            cache := { data := some c, forecast := some f, last_update := now }
            requested := true }) := by
  intro cache now net
  constructor
  · intro h
    simp [fetch_weather, h]
  · intro h
    constructor
    · cases net <;> simp [fetch_weather, h]
    · intro c f hnet
      subst hnet
      simp [fetch_weather, h]

/-- Witness for C3 at a concrete warm cache and a concrete stale cache. -/
theorem c3_fetch_weather_cache_witness :
    (pyTruthyDict (WeatherCache.mk (some [("temp", SVal.vNum 1)]) (some []) 0).data = true
      ∧ (10 : ℚ) - (WeatherCache.mk (some [("temp", SVal.vNum 1)]) (some []) 0).last_update
          < WEATHER_CACHE_DURATION)
    ∧ fetch_weather (WeatherCache.mk (some [("temp", SVal.vNum 1)]) (some []) 0) 10 .exc =
        { ret := (some [("temp", SVal.vNum 1)], some [])
          cache := WeatherCache.mk (some [("temp", SVal.vNum 1)]) (some []) 0
          requested := false }
    ∧ (fetch_weather weather_cache_init 10 .exc).requested = true := by
  have h : pyTruthyDict (WeatherCache.mk (some [("temp", SVal.vNum 1)]) (some []) 0).data = true
      ∧ (10 : ℚ) - (WeatherCache.mk (some [("temp", SVal.vNum 1)]) (some []) 0).last_update
          < WEATHER_CACHE_DURATION := by
    constructor
    · rfl
    · show (10 : ℚ) - 0 < 600
      norm_num
  refine ⟨h, (c3_fetch_weather_cache _ 10 .exc).1 h, ?_⟩
  have h' : ¬ (pyTruthyDict weather_cache_init.data = true
      ∧ (10 : ℚ) - weather_cache_init.last_update < WEATHER_CACHE_DURATION) := by
    intro hc
    simpa [weather_cache_init, pyTruthyDict] using hc.1
  exact ((c3_fetch_weather_cache weather_cache_init 10 .exc).2 h').1

/-- C6: when the outbound requests raise, `fetch_weather` leaves the cache
unchanged, returns the previously cached pair, and on the initial cache
that pair is `(None, None)`; the embedding is a total function, so the
exception never propagates. -/
theorem c6_fetch_weather_exception : ∀ (cache : WeatherCache) (now : ℚ),
    (fetch_weather cache now .exc).ret = (cache.data, cache.forecast)
    ∧ (fetch_weather cache now .exc).cache = cache
    ∧ (fetch_weather weather_cache_init now .exc).ret = (none, none) := by
  intro cache now
  refine ⟨?_, ?_, ?_⟩ <;> (unfold fetch_weather; split_ifs <;> rfl)

/-!
## Claim theorems: room aggregation and sensor ingestion
-/

theorem grd_lookup_bedroom (readings : Readings) :
    alookup (get_room_data readings ROOM_CONFIG) "Bedroom" =
      (if (roomLoop readings ([], none) ["HomePOD_Env_Node", "HomePOD_Light_Node"]).1 = []
       then none
       else some ⟨(roomLoop readings ([], none) ["HomePOD_Env_Node", "HomePOD_Light_Node"]).1,
                  (roomLoop readings ([], none) ["HomePOD_Env_Node", "HomePOD_Light_Node"]).2⟩) := by
  simp only [get_room_data, ROOM_CONFIG, roomsLoop]
  by_cases h₁ : (roomLoop readings ([], none) ["HomePOD_Env_Node", "HomePOD_Light_Node"]).1 = [] <;>
    by_cases h₂ : (roomLoop readings ([], none) ["HomePOD_Env_Node_2"]).1 = [] <;>
      simp [h₁, h₂, dinsert, alookup]

theorem grd_lookup_living (readings : Readings) :
    alookup (get_room_data readings ROOM_CONFIG) "Living Room" =
      (if (roomLoop readings ([], none) ["HomePOD_Env_Node_2"]).1 = []
       then none
       else some ⟨(roomLoop readings ([], none) ["HomePOD_Env_Node_2"]).1,
                  (roomLoop readings ([], none) ["HomePOD_Env_Node_2"]).2⟩) := by
  simp only [get_room_data, ROOM_CONFIG, roomsLoop]
  by_cases h₁ : (roomLoop readings ([], none) ["HomePOD_Env_Node", "HomePOD_Light_Node"]).1 = [] <;>
    by_cases h₂ : (roomLoop readings ([], none) ["HomePOD_Env_Node_2"]).1 = [] <;>
      simp [h₁, h₂, dinsert, alookup]

theorem c1_core (readings : Readings) (rooms_out : List (String × RoomData))
    (room : String) (devs : List String)
    (hout : alookup rooms_out room =
      (if (roomLoop readings ([], none) devs).1 = [] then none
       else some ⟨(roomLoop readings ([], none) devs).1,
                  (roomLoop readings ([], none) devs).2⟩)) :
    (∀ k, roomSensor rooms_out room k = specLastWrite readings devs k)
    ∧ (∀ k, roomSensor rooms_out room k ≠ some SVal.vNone)
    ∧ (∀ rd, alookup rooms_out room = some rd →
        rd.received_at = specMaxTs readings devs) := by
  have hsens : ∀ k, alookup (roomLoop readings ([], none) devs).1 k
      = specLastWrite readings devs k := by
    intro k
    rw [roomLoop_fst]
    simp [alookup, oalt_none_right]
  have h1 : ∀ k, roomSensor rooms_out room k = specLastWrite readings devs k := by
    intro k
    unfold roomSensor
    rw [hout]
    split_ifs with hme
    · have h := hsens k
      rw [hme] at h
      simp only [alookup] at h
      simpa using h
    · simpa using hsens k
  refine ⟨h1, fun k => (h1 k) ▸ specLastWrite_ne_vNone readings devs k, ?_⟩
  intro rd hrd
  rw [hout] at hrd
  split_ifs at hrd with hme
  cases hrd
  show (roomLoop readings ([], none) devs).2 = specMaxTs readings devs
  rw [roomLoop_snd]
  rfl

/-- C1: for every room in `ROOM_CONFIG`, `get_room_data` merges the
configured devices' sensor dictionaries in configured order with last
write wins on each key — a later device's non-`None` value overwrites an
earlier one's, `None` values are never stored — and the room's
`received_at` is the maximum of the contributing devices' timestamps under
Python string comparison. -/
theorem c1_room_merge (readings : Readings) (room : String) (devs : List String)
    (hmem : (room, devs) ∈ ROOM_CONFIG) :
    (∀ k, roomSensor (get_room_data readings ROOM_CONFIG) room k
        = specLastWrite readings devs k)
    ∧ (∀ k, roomSensor (get_room_data readings ROOM_CONFIG) room k ≠ some SVal.vNone)
    ∧ (∀ rd, alookup (get_room_data readings ROOM_CONFIG) room = some rd →
        rd.received_at = specMaxTs readings devs) := by
  have hcfg : (room = "Bedroom" ∧ devs = ["HomePOD_Env_Node", "HomePOD_Light_Node"])
      ∨ (room = "Living Room" ∧ devs = ["HomePOD_Env_Node_2"]) := by
    simpa [ROOM_CONFIG, Prod.ext_iff] using hmem
  rcases hcfg with ⟨hr, hd⟩ | ⟨hr, hd⟩ <;> subst hr <;> subst hd
  · exact c1_core readings _ _ _ (grd_lookup_bedroom readings)
  · exact c1_core readings _ _ _ (grd_lookup_living readings)

/-- Witness for C1: a concrete `latest_readings` holding one bedroom
device with a temperature reading. -/
theorem c1_room_merge_witness :
    (("Bedroom", ["HomePOD_Env_Node", "HomePOD_Light_Node"]) ∈ ROOM_CONFIG)
    ∧ roomSensor
        (get_room_data
          [("HomePOD_Env_Node",
            { sensors := [("temperature", SVal.vNum 20)], received_at := some "2026-01-01" })]
          ROOM_CONFIG)
        "Bedroom" "temperature"
      = specLastWrite
          [("HomePOD_Env_Node",
            { sensors := [("temperature", SVal.vNum 20)], received_at := some "2026-01-01" })]
          ["HomePOD_Env_Node", "HomePOD_Light_Node"] "temperature" := by
  refine ⟨by simp [ROOM_CONFIG], ?_⟩
  exact (c1_room_merge _ "Bedroom" _ (by simp [ROOM_CONFIG])).1 "temperature"

/-- C7: in the demo variant, for every request (i.e. for whatever startup
timestamps were stamped), `get_room_data` returns exactly the rooms
`'Bedroom'` with merged sensors temperature 21.8, humidity 42.5,
audio_peak 35, light 180, and `'Living Room'` with temperature 23.2,
humidity 38.7, audio_peak 245. -/
theorem c7_demo_rooms : ∀ t₁ t₂ t₃ : String,
    (get_room_data (demo_latest_readings t₁ t₂ t₃) DEMO_ROOM_CONFIG).map
        (fun r => (r.1, r.2.sensors)) =
      [("Bedroom",
        [("temperature", SVal.vNum 21.8), ("humidity", SVal.vNum 42.5),
         ("audio_peak", SVal.vNum 35), ("light", SVal.vNum 180)]),
       ("Living Room",
        [("temperature", SVal.vNum 23.2), ("humidity", SVal.vNum 38.7),
         ("audio_peak", SVal.vNum 245)])] := by
  intro t₁ t₂ t₃
  rfl

/-- Counterexample to C5 as stated: the payload `\x7b"sensors": 5\x7d` is
non-empty JSON, yet `sensors.get('temperature', 'N/A')` in the console
block raises, so the handler answers HTTP 500 with status `'error'` — not
HTTP 200 with status `'success'`. -/
theorem c5_sensor_post_counterexample :
    ([("sensors", SVal.vNum 5)] : PDict) ≠ []
    ∧ (receive_sensor_data { latest_readings := [], log := [] }
        (some [("sensors", SVal.vNum 5)]) "2026-10-12 00:00:00").1 = SResp.err500
    ∧ (receive_sensor_data { latest_readings := [], log := [] }
        (some [("sensors", SVal.vNum 5)]) "2026-10-12 00:00:00").1
      ≠ SResp.ok200 (SVal.vStr "Unknown Device") := by
  refine ⟨by simp, rfl, by decide⟩

/-- C5 (amended): a POST to `/sensor-data` with a non-empty JSON body
stamps the payload with `received_at`, stores it in `latest_readings`
under the payload's `device_name` (default `'Unknown Device'`) and appends
it to the data log; the response is 200 `'success'` when the payload has
no `'sensors'` key or maps it to a JSON object, and 500 `'error'` when
`'sensors'` maps to a non-object value (the console block raises after the
state was already mutated); a POST with no JSON data (or an empty object,
both falsy) returns 400 and leaves the state unchanged. -/
theorem c5_sensor_post : ∀ (st : SensorState) (nowStr : String),
    (∀ data : PDict, data ≠ [] →
      (receive_sensor_data st (some data) nowStr).2 =
        { latest_readings :=
            dinsert st.latest_readings
              ((alookup data "device_name").getD (SVal.vStr "Unknown Device"))
              (dinsert data "received_at" (SVal.vStr nowStr))
          log := st.log ++ [dinsert data "received_at" (SVal.vStr nowStr)] }
      ∧ alookup (dinsert data "received_at" (SVal.vStr nowStr)) "received_at"
          = some (SVal.vStr nowStr)
      ∧ (alookup data "sensors" = none →
          (receive_sensor_data st (some data) nowStr).1 =
            SResp.ok200 ((alookup data "device_name").getD (SVal.vStr "Unknown Device")))
      ∧ (∀ entries, alookup data "sensors" = some (SVal.vDict entries) →
          (receive_sensor_data st (some data) nowStr).1 =
            SResp.ok200 ((alookup data "device_name").getD (SVal.vStr "Unknown Device")))
      ∧ (∀ v, alookup data "sensors" = some v → (∀ entries, v ≠ SVal.vDict entries) →
          (receive_sensor_data st (some data) nowStr).1 = SResp.err500))
    ∧ receive_sensor_data st none nowStr = (SResp.err400, st)
    ∧ receive_sensor_data st (some []) nowStr = (SResp.err400, st) := by
  intro st nowStr
  refine ⟨?_, rfl, rfl⟩
  intro data hdata
  have hk : alookup (dinsert data "received_at" (SVal.vStr nowStr)) "device_name"
      = alookup data "device_name" := by
    rw [alookup_dinsert]
    simp
  have hs : alookup (dinsert data "received_at" (SVal.vStr nowStr)) "sensors"
      = alookup data "sensors" := by
    rw [alookup_dinsert]
    simp
  refine ⟨?_, ?_, ?_, ?_, ?_⟩
  · simp only [receive_sensor_data, if_neg hdata]
    cases hsv : alookup (dinsert data "received_at" (SVal.vStr nowStr)) "sensors" with
    | none => simp [hk]
    | some v => cases v <;> simp [hk]
  · rw [alookup_dinsert]
    simp
  · intro h
    simp only [receive_sensor_data, if_neg hdata]
    rw [hs, h, hk]
  · intro entries h
    simp only [receive_sensor_data, if_neg hdata]
    rw [hs, h, hk]
  · intro v h hne
    simp only [receive_sensor_data, if_neg hdata]
    rw [hs, h]
    cases v with
    | vDict entries => exact absurd rfl (hne entries)
    | vNone => rfl
    | vBool b => rfl
    | vNum q => rfl
    | vStr s => rfl

/-- Witness for C5 at a concrete payload whose `'sensors'` value is a
dictionary (the 200 path) with the full post-state. -/
theorem c5_sensor_post_witness :
    ([("device_name", SVal.vStr "Node1"),
      ("sensors", SVal.vDict [("temperature", SVal.vNum 21)])] : PDict) ≠ []
    ∧ alookup ([("device_name", SVal.vStr "Node1"),
        ("sensors", SVal.vDict [("temperature", SVal.vNum 21)])] : PDict) "sensors"
      = some (SVal.vDict [("temperature", SVal.vNum 21)])
    ∧ (receive_sensor_data { latest_readings := [], log := [] }
        (some [("device_name", SVal.vStr "Node1"),
               ("sensors", SVal.vDict [("temperature", SVal.vNum 21)])])
        "2026-10-12 00:00:00").1 = SResp.ok200 (SVal.vStr "Node1")
    ∧ (receive_sensor_data { latest_readings := [], log := [] }
        (some [("device_name", SVal.vStr "Node1"),
               ("sensors", SVal.vDict [("temperature", SVal.vNum 21)])])
        "2026-10-12 00:00:00").2 =
      { latest_readings :=
          [(SVal.vStr "Node1",
            [("device_name", SVal.vStr "Node1"),
             ("sensors", SVal.vDict [("temperature", SVal.vNum 21)]),
             ("received_at", SVal.vStr "2026-10-12 00:00:00")])]
        log := [[("device_name", SVal.vStr "Node1"),
                 ("sensors", SVal.vDict [("temperature", SVal.vNum 21)]),
                 ("received_at", SVal.vStr "2026-10-12 00:00:00")]] } := by
  refine ⟨by simp, rfl, ?_, ?_⟩
  · exact ((c5_sensor_post { latest_readings := [], log := [] } "2026-10-12 00:00:00").1
      [("device_name", SVal.vStr "Node1"),
       ("sensors", SVal.vDict [("temperature", SVal.vNum 21)])] (by simp)).2.2.2.1
      [("temperature", SVal.vNum 21)] rfl
  · exact ((c5_sensor_post { latest_readings := [], log := [] } "2026-10-12 00:00:00").1
      [("device_name", SVal.vStr "Node1"),
       ("sensors", SVal.vDict [("temperature", SVal.vNum 21)])] (by simp)).1

/-!
## Claim theorems: to-do toggle frame property
-/

theorem toggleFirst_found : ∀ (l : List TodoItem) (item_id : String) (j : Nat) (t : TodoItem),
    firstIdx l item_id = some j → l[j]? = some t →
    toggleFirst l item_id
      = l.set j { id := t.id, text := t.text, completed := !t.completed } := by
  intro l
  induction l with
  | nil => intro item_id j t hj; simp [firstIdx] at hj
  | cons t₀ rest ih =>
    intro item_id j t hj ht
    by_cases h : t₀.id = item_id
    · simp only [firstIdx, if_pos h] at hj
      cases hj
      simp only [List.getElem?_cons_zero, Option.some.injEq] at ht
      cases ht
      simp [toggleFirst, h, List.set]
    · simp only [firstIdx, if_neg h, Option.map_eq_some'] at hj
      obtain ⟨j', hj', rfl⟩ := hj
      simp only [List.getElem?_cons_succ] at ht
      simp [toggleFirst, h, List.set, ih item_id j' t hj' ht]

theorem toggleFirst_not_found : ∀ (l : List TodoItem) (item_id : String),
    (∀ t ∈ l, t.id ≠ item_id) → toggleFirst l item_id = l := by
  intro l
  induction l with
  | nil => intro item_id _; rfl
  | cons t₀ rest ih =>
    intro item_id hall
    have h₀ : t₀.id ≠ item_id := hall t₀ (by simp)
    simp only [toggleFirst, if_neg h₀]
    rw [ih item_id (fun t ht => hall t (by simp [ht]))]

/-- C9: `todo_toggle` negates the `completed` field of the first item
whose id matches and changes nothing else — the matched item's `id` and
`text` and every other item, order included, are untouched (`List.set` at
the first matching index) — the whole list is unchanged when no id
matches, and in every case the list is re-saved to the to-do file. -/
theorem c9_todo_toggle_frame : ∀ (l : List TodoItem) (item_id : String),
    (∀ j t, firstIdx l item_id = some j → l[j]? = some t →
      toggleFirst l item_id
        = l.set j { id := t.id, text := t.text, completed := !t.completed })
    ∧ ((∀ t ∈ l, t.id ≠ item_id) → toggleFirst l item_id = l)
    ∧ (∀ w : AppWorld (List TodoItem), w.mem = l →
        (todo_toggle w item_id).mem = toggleFirst l item_id
        ∧ (todo_toggle w item_id).file = some (toggleFirst l item_id)) := by
  intro l item_id
  refine ⟨fun j t hj ht => toggleFirst_found l item_id j t hj ht,
    toggleFirst_not_found l item_id, ?_⟩
  intro w hw
  cases hw
  exact ⟨rfl, rfl⟩

/-- Witness for C9 at a one-element list whose item matches. -/
theorem c9_todo_toggle_frame_witness :
    firstIdx [TodoItem.mk "a" "water plants" false] "a" = some 0
    ∧ ([TodoItem.mk "a" "water plants" false] : List TodoItem)[0]?
        = some (TodoItem.mk "a" "water plants" false)
    ∧ toggleFirst [TodoItem.mk "a" "water plants" false] "a"
        = [TodoItem.mk "a" "water plants" false].set 0
            (TodoItem.mk "a" "water plants" (!false)) := by
  refine ⟨rfl, rfl, ?_⟩
  exact (c9_todo_toggle_frame [TodoItem.mk "a" "water plants" false] "a").1 0
    (TodoItem.mk "a" "water plants" false) rfl rfl

/-!
## Claim theorems: persistence of every mutating handler
-/

theorem todoStep_save (o : TodoOp) (w : AppWorld (List TodoItem)) :
    todoStep o w = w ∨ (todoStep o w).file = some (todoStep o w).mem := by
  cases o with
  | add freshId text =>
    simp only [todoStep, todo_add]
    split_ifs
    · right; rfl
    · left; rfl
  | toggle item_id => right; rfl
  | delete item_id => right; rfl

theorem notesStep_save (o : NotesOp) (w : AppWorld (List Note)) :
    notesStep o w = w ∨ (notesStep o w).file = some (notesStep o w).mem := by
  cases o with
  | add freshId title content created =>
    simp only [notesStep, notes_add]
    split_ifs
    · right; rfl
    · left; rfl
  | delete note_id => right; rfl

theorem timersStep_save (o : TimersOp) (w : AppWorld (List TimerItem)) :
    timersStep o w = w ∨ (timersStep o w).file = some (timersStep o w).mem := by
  cases o with
  | add freshId name minutes seconds =>
    simp only [timersStep, timers_add]
    split_ifs
    · right; rfl
    · left; rfl
  | start timer_id now => right; rfl
  | stop timer_id => right; rfl
  | delete timer_id => right; rfl

theorem musicStep_save (o : MusicOp) (w : AppWorld MusicState) :
    musicStep o w = w ∨ (musicStep o w).file = some (musicStep o w).mem := by
  cases o with
  | add freshId title artist =>
    simp only [musicStep, music_add]
    split_ifs
    · right; rfl
    · left; rfl
  | play => right; rfl
  | pause => right; rfl
  | playIndex index =>
    simp only [musicStep, music_play_index]
    split_ifs
    · right; rfl
    · left; rfl
  | next =>
    simp only [musicStep, music_next]
    split_ifs
    · right; rfl
    · left; rfl
  | previous =>
    simp only [musicStep, music_previous]
    split_ifs
    · right; rfl
    · left; rfl
  | remove track_id => right; rfl

/-- C2: every mutating route of the four apps either leaves the world
entirely unchanged (the no-op guard branch) or ends with the app's
`save_*`, so the file holds exactly the post-mutation in-memory state; in
particular, whenever the file mirrored memory before the handler, it still
does when the handler returns. -/
theorem c2_mutations_persist :
    (∀ (o : TodoOp) (w), todoStep o w = w
      ∨ (todoStep o w).file = some (todoStep o w).mem)
    ∧ (∀ (o : NotesOp) (w), notesStep o w = w
      ∨ (notesStep o w).file = some (notesStep o w).mem)
    ∧ (∀ (o : TimersOp) (w), timersStep o w = w
      ∨ (timersStep o w).file = some (timersStep o w).mem)
    ∧ (∀ (o : MusicOp) (w), musicStep o w = w
      ∨ (musicStep o w).file = some (musicStep o w).mem)
    ∧ (∀ (o : TodoOp) (w), w.file = some w.mem →
      (todoStep o w).file = some (todoStep o w).mem)
    ∧ (∀ (o : NotesOp) (w), w.file = some w.mem →
      (notesStep o w).file = some (notesStep o w).mem)
    ∧ (∀ (o : TimersOp) (w), w.file = some w.mem →
      (timersStep o w).file = some (timersStep o w).mem)
    ∧ (∀ (o : MusicOp) (w), w.file = some w.mem →
      (musicStep o w).file = some (musicStep o w).mem) := by
  refine ⟨todoStep_save, notesStep_save, timersStep_save, musicStep_save,
    ?_, ?_, ?_, ?_⟩ <;> intro o w h
  · rcases todoStep_save o w with he | hf
    · rw [he]; exact h
    · exact hf
  · rcases notesStep_save o w with he | hf
    · rw [he]; exact h
    · exact hf
  · rcases timersStep_save o w with he | hf
    · rw [he]; exact h
    · exact hf
  · rcases musicStep_save o w with he | hf
    · rw [he]; exact h
    · exact hf

/-- Witness for C2: a toggle on a synced world stays synced, and an add
that mutates writes the new list. -/
theorem c2_mutations_persist_witness :
    (AppWorld.mk ([] : List TodoItem) (some [])).file
      = some (AppWorld.mk ([] : List TodoItem) (some [])).mem
    ∧ (todoStep (TodoOp.toggle "a") (AppWorld.mk ([] : List TodoItem) (some []))).file
      = some (todoStep (TodoOp.toggle "a") (AppWorld.mk ([] : List TodoItem) (some []))).mem := by
  refine ⟨rfl, ?_⟩
  exact c2_mutations_persist.2.2.2.2.1 (TodoOp.toggle "a")
    (AppWorld.mk ([] : List TodoItem) (some [])) rfl

/-!
## Claim theorems: music queue index invariant
-/

theorem musicInv_preserved (o : MusicOp) (s : MusicState)
    (hinv : musicInv s) (hnodup : (s.queue.map Track.id).Nodup) (hfresh : opFresh o s) :
    musicInv (musicMem o s) ∧ ((musicMem o s).queue.map Track.id).Nodup := by
  obtain ⟨hempty, hne⟩ := hinv
  cases o with
  | add freshId title artist =>
    simp only [opFresh] at hfresh
    simp only [musicMem, musicStep, music_add, saveApp]
    split_ifs with hc
    · refine ⟨⟨?_, ?_⟩, ?_⟩
      · intro h
        simp at h
      · intro _
        rcases eq_or_ne s.queue [] with hq | hq
        · have h0 := hempty hq
          rw [h0]
          simp [hq]
        · have hb := hne hq
          simp only [List.length_append, List.length_cons, List.length_nil]
          push_cast
          omega
      · simp only [List.map_append, List.map_cons, List.map_nil]
        simp [List.nodup_append, hnodup, hfresh]
    · exact ⟨⟨hempty, hne⟩, hnodup⟩
  | play => exact ⟨⟨hempty, hne⟩, hnodup⟩
  | pause => exact ⟨⟨hempty, hne⟩, hnodup⟩
  | playIndex index =>
    simp only [musicMem, musicStep, music_play_index, saveApp]
    split_ifs with hc
    · refine ⟨⟨?_, fun _ => hc⟩, hnodup⟩
      intro h
      rw [h] at hc
      simp at hc
      omega
    · exact ⟨⟨hempty, hne⟩, hnodup⟩
  | next =>
    simp only [musicMem, musicStep, music_next, saveApp]
    split_ifs with hq
    · have hlen : 0 < ((s.queue.length : Int)) := by
        exact_mod_cast List.length_pos.mpr hq
      refine ⟨⟨fun h => absurd h hq, fun _ => ?_⟩, hnodup⟩
      exact ⟨Int.emod_nonneg _ (by omega), Int.emod_lt_of_pos _ hlen⟩
    · exact ⟨⟨hempty, hne⟩, hnodup⟩
  | previous =>
    simp only [musicMem, musicStep, music_previous, saveApp]
    split_ifs with hq
    · have hlen : 0 < ((s.queue.length : Int)) := by
        exact_mod_cast List.length_pos.mpr hq
      refine ⟨⟨fun h => absurd h hq, fun _ => ?_⟩, hnodup⟩
      exact ⟨Int.emod_nonneg _ (by omega), Int.emod_lt_of_pos _ hlen⟩
    · exact ⟨⟨hempty, hne⟩, hnodup⟩
  | remove track_id =>
    have hmem : musicMem (.remove track_id) s =
        { queue := s.queue.filter (fun t => decide (t.id ≠ track_id))
          current_index :=
            if ((s.queue.filter (fun t => decide (t.id ≠ track_id))).length : Int)
                  ≤ s.current_index
                ∧ s.queue.filter (fun t => decide (t.id ≠ track_id)) ≠ []
            then ((s.queue.filter (fun t => decide (t.id ≠ track_id))).length : Int) - 1
            else s.current_index
          is_playing := s.is_playing } := rfl
    rw [hmem]
    have hsub : ((s.queue.filter (fun t => decide (t.id ≠ track_id))).map Track.id).Nodup :=
      List.Nodup.sublist (List.Sublist.map Track.id (List.filter_sublist s.queue)) hnodup
    refine ⟨⟨?_, ?_⟩, hsub⟩
    · intro h
      have h' : s.queue.filter (fun t => decide (t.id ≠ track_id)) = [] := h
      show (if ((s.queue.filter (fun t => decide (t.id ≠ track_id))).length : Int)
                ≤ s.current_index
              ∧ s.queue.filter (fun t => decide (t.id ≠ track_id)) ≠ []
            then ((s.queue.filter (fun t => decide (t.id ≠ track_id))).length : Int) - 1
            else s.current_index) = 0
      rw [if_neg (fun hcc => hcc.2 h')]
      rcases eq_or_ne s.queue [] with hq | hq
      · exact hempty hq
      · have hb := hne hq
        have hall : ∀ t ∈ s.queue, t.id = track_id := by
          intro t ht
          have hp := (List.filter_eq_nil_iff.mp h') t ht
          simpa using hp
        have hlen1 : s.queue.length ≤ 1 := by
          cases hqe : s.queue with
          | nil => simp
          | cons t₀ rest =>
            cases hre : rest with
            | nil => simp
            | cons t₁ rest₂ =>
              exfalso
              rw [hqe, hre] at hall hnodup
              have h₀ : t₀.id = track_id := hall t₀ (by simp)
              have h₁ : t₁.id = track_id := hall t₁ (by simp)
              simp [List.nodup_cons] at hnodup
              exact hnodup.1.1 (h₀.trans h₁.symm)
        omega
    · intro hq'
      have hq'' : s.queue.filter (fun t => decide (t.id ≠ track_id)) ≠ [] := hq'
      have hqnil : s.queue ≠ [] := by
        intro hh
        apply hq''
        simp [hh]
      have hb := hne hqnil
      have hlen' : 0 < ((s.queue.filter (fun t => decide (t.id ≠ track_id))).length : Int) := by
        exact_mod_cast List.length_pos.mpr hq''
      show 0 ≤ (if ((s.queue.filter (fun t => decide (t.id ≠ track_id))).length : Int)
                    ≤ s.current_index
                  ∧ s.queue.filter (fun t => decide (t.id ≠ track_id)) ≠ []
                then ((s.queue.filter (fun t => decide (t.id ≠ track_id))).length : Int) - 1
                else s.current_index)
          ∧ (if ((s.queue.filter (fun t => decide (t.id ≠ track_id))).length : Int)
                  ≤ s.current_index
                ∧ s.queue.filter (fun t => decide (t.id ≠ track_id)) ≠ []
              then ((s.queue.filter (fun t => decide (t.id ≠ track_id))).length : Int) - 1
              else s.current_index)
            < ((s.queue.filter (fun t => decide (t.id ≠ track_id))).length : Int)
      by_cases hc : ((s.queue.filter (fun t => decide (t.id ≠ track_id))).length : Int)
          ≤ s.current_index
      · rw [if_pos ⟨hc, hq''⟩]
        omega
      · rw [if_neg (fun hh => hc hh.1)]
        omega

/-- C8: starting from the default music state, after any sequence of the
music operations (with `uuid4` modelled as supplying an id not already in
the queue on `add`), `current_index` is a valid index whenever the queue
is non-empty, and equals 0 whenever the queue is empty. -/
theorem c8_music_index_invariant (s : MusicState) (h : MusicReach s) :
    (s.queue ≠ [] → 0 ≤ s.current_index ∧ s.current_index < (s.queue.length : Int))
    ∧ (s.queue = [] → s.current_index = 0) := by
  have main : ∀ s', MusicReach s' → musicInv s' ∧ (s'.queue.map Track.id).Nodup := by
    intro s' h'
    induction h' with
    | init =>
      refine ⟨⟨fun _ => rfl, fun hne => absurd rfl hne⟩, by simp [default_music_state]⟩
    | step o t hr hf ih => exact musicInv_preserved o t ih.1 ih.2 hf
  exact ⟨(main s h).1.2, (main s h).1.1⟩

/-- Witness for C8 at the default (reachable) state. -/
theorem c8_music_index_invariant_witness :
    MusicReach default_music_state ∧ default_music_state.current_index = 0 :=
  ⟨.init, (c8_music_index_invariant default_music_state .init).2 rfl⟩

end HomeHub
